import Mathlib

/-!
Verification development for the alexa-slack skill backend (src/index.js).

The source is a single JavaScript file orchestrating a voice-intent
dispatcher, a time normalizer, an offset-aware snooze-duration
calculator, a three-stage location/timezone HTTP chain, and a
keyword-based status-to-emoji mapper.  This file shallowly embeds those
parts in Lean:

* pure string/time functions become Lean functions;
* HTTP calls become pure functions over explicit response values
  (an HTTP response is data supplied by the environment);
* promise chains become explicit sequencing that also records which
  external services were called, so that "no subsequent call is
  attempted" is expressible;
* JavaScript numbers are modelled as integers where the code only ever
  holds integers, and as rationals where the code divides
  (JavaScript `/` is numeric division, not integer truncation);
* `moment.diff(-, 'minutes')` truncates toward zero, modelled by
  integer truncated division;
* `String.prototype.match` against a plain-word regex is substring
  containment, modelled by list-infix containment on the characters.
-/

namespace AlexaSlack

/-- Substring containment on strings, modelling the JavaScript
`status.match(/word/)` tests in `emojifyStatus` (the regexes are all
plain words, so matching is exact, case-sensitive substring search). -/
def containsSub (needle s : String) : Bool :=
  decide (List.IsInfix needle.toList s.toList)

/-- Embeds `normalizeAmazonTime` (src/index.js lines 177-193).  The
AMAZON.TIME slot delivers the coarse time-of-day tokens "MO" (morning),
"AF" (afternoon), "EV" (evening), "NI" (night); the JavaScript `switch`
rewrites exactly these four and leaves every other string untouched. -/
def normalizeAmazonTime (time : String) : String :=
  if time = "MO" then "09:00"
  else if time = "AF" then "13:00"
  else if time = "EV" then "19:00"
  else if time = "NI" then "21:00"
  else time

/-- Truncated integer division (quotient rounded toward zero),
modelling how `moment.diff(now, 'minutes')` converts a millisecond
difference to whole minutes (moment applies `absFloor`, i.e.
truncation toward zero). -/
def truncDiv (a b : ℤ) : ℤ := Int.tdiv a b

/-- Embeds `getMinutesUntil` (src/index.js lines 201-213).

The JavaScript builds
`moment(requested_time + "Z", 'HH:mmZ').utcOffset(offset, true)`:
the parsed wall-clock time of day on moment's default date, re-tagged
(keeping the wall clock) with the user's UTC offset in minutes.  As an
epoch instant that is
`todayUTCMidnightMs + timeOfDayMin*60000 - offset*60000`, where

* `timeOfDayMin` is the parsed `HH:mm` as minutes after midnight,
* `todayUTCMidnightMs` is the epoch millisecond of 00:00 UTC on the
  default date moment assigns,
* `offset` is the UTC offset in minutes.

`Date.now()` is the parameter `nowMs` (epoch milliseconds).  If now is
strictly past the requested instant the code adds one calendar day
(86400000 ms: a fixed-offset moment has no DST transitions), then
returns the difference truncated to whole minutes. -/
def getMinutesUntil (timeOfDayMin offset todayUTCMidnightMs nowMs : ℤ) : ℤ :=
  let requested := todayUTCMidnightMs + timeOfDayMin * 60000 - offset * 60000
  let adjusted := if nowMs > requested then requested + 86400000 else requested
  truncDiv (adjusted - nowMs) 60000

/-- The profile object `emojifyStatus` builds for the Slack
`users.profile.set` call. -/
structure Profile where
  status_text : String
  status_emoji : String
deriving DecidableEq

/-- Embeds `emojifyStatus` (src/index.js lines 302-360): an if/else-if
chain of substring tests, first match wins, with a generic fallback. -/
def emojifyStatus (status : String) : Profile :=
  if containsSub "lunch" status then ⟨status, ":taco:"⟩
  else if containsSub "coffee" status then ⟨status, ":coffee:"⟩
  else if containsSub "busy" status then ⟨"Do not disturb", ":no_entry_sign:"⟩
  else if containsSub "errand" status then ⟨status, ":running:"⟩
  else if containsSub "doctor" status then ⟨status, ":face_with_thermometer:"⟩
  else if containsSub "away" status then ⟨status, ":no_entry_sign:"⟩
  else if containsSub "call" status then ⟨status, ":slack_call:"⟩
  else if containsSub "meeting" status then ⟨status, ":calendar:"⟩
  else if containsSub "sick" status then ⟨status, ":face_with_thermometer:"⟩
  else if containsSub "commuting" status then ⟨status, ":bus:"⟩
  else ⟨status, ":speech_balloon:"⟩

/-- The fixed priority table of the spec: keyword, optional display-text
override, emoji, in the order the keywords are tested. -/
def priorityTable : List (String × Option String × String) :=
  [("lunch", none, ":taco:"),
   ("coffee", none, ":coffee:"),
   ("busy", some "Do not disturb", ":no_entry_sign:"),
   ("errand", none, ":running:"),
   ("doctor", none, ":face_with_thermometer:"),
   ("away", none, ":no_entry_sign:"),
   ("call", none, ":slack_call:"),
   ("meeting", none, ":calendar:"),
   ("sick", none, ":face_with_thermometer:"),
   ("commuting", none, ":bus:")]

/-- The spec's description of the status mapper, for the refinement
claim: test the keywords in the fixed priority order, the earliest
matching keyword determines emoji and (for "busy") the text override;
no match falls through to the generic emoji with the text preserved. -/
def emojifyStatusSpec (status : String) : Profile :=
  match priorityTable.find? (fun e => containsSub e.1 status) with
  | some e => ⟨e.2.1.getD status, e.2.2⟩
  | none => ⟨status, ":speech_balloon:"⟩

/-- An HTTP response as the `request-promise-native` client (with
`resolveWithFullResponse: true`) delivers it: a status code and a
parsed JSON body.  Responses are inputs supplied by the external
services. -/
structure HttpResponse (β : Type) where
  statusCode : Nat
  body : β

/-- Body of the Alexa device-address API response.  The code reads only
`postalCode` and `countryCode`; on failure the service's JSON body also
carries its own error field (here `message`), which the code never
reads. -/
structure AddressBody where
  postalCode : String
  countryCode : String
  message : String

/-- `geometry.location` of a Google geocoding result. -/
structure LatLng where
  lat : ℚ
  lng : ℚ

/-- `geometry` of a Google geocoding result. -/
structure Geometry where
  location : LatLng

/-- One element of the Google geocoding `results` array. -/
structure GeoResult where
  geometry : Geometry

/-- Body of the Google geocoding API response. -/
structure GeoBody where
  status : String
  results : List GeoResult

/-- Body of the Google timezone API response.  `rawOffset` and
`dstOffset` are in seconds. -/
structure TzBody where
  status : String
  rawOffset : ℤ
  dstOffset : ℤ

/-- The fixed error message of the device-address stage
(src/index.js line 248). -/
def addrPermissionMsg : String :=
  "I'm sorry, I couldn't get your location. Make sure you've given this skill permission to use your address in the Alexa app."

/-- The constant part of the geocoding-stage error message
(src/index.js line 270); the body's `status` field is appended. -/
def geoErrMsgStart : String :=
  "I'm sorry, I couldn't understand that address. The response from Google Maps was "

/-- The constant part of the timezone-stage error message
(src/index.js line 292); the body's `status` field is appended. -/
def tzErrMsgStart : String :=
  "I'm sorry, I couldn't get the timezone for that location. The response from Google Maps was "

/-- Embeds the response handling of `getEchoAddress`
(src/index.js lines 244-250): on status 200 the address string
"postalCode countryCode", otherwise a rejection with the fixed
permission message. -/
def getEchoAddress (resp : HttpResponse AddressBody) : Except String String :=
  if resp.statusCode = 200 then
    Except.ok (resp.body.postalCode ++ " " ++ resp.body.countryCode)
  else
    Except.error addrPermissionMsg

/-- Embeds the response handling of `geocodeLocation`
(src/index.js lines 266-272): on status 200 with body status "OK" the
first result (`results[0]`; `none` models JavaScript `undefined` when
the array is empty), otherwise a rejection embedding the body's
status field. -/
def geocodeLocation (resp : HttpResponse GeoBody) : Except String (Option GeoResult) :=
  if resp.statusCode = 200 ∧ resp.body.status = "OK" then
    Except.ok resp.body.results.head?
  else
    Except.error (geoErrMsgStart ++ resp.body.status)

/-- Embeds the response handling of `getUTCOffset`
(src/index.js lines 288-294): on status 200 with body status "OK" the
offset `(rawOffset + dstOffset) / 60`.  JavaScript `/` is numeric
division, modelled in ℚ; a rejection embeds the body's status field. -/
def getUTCOffset (resp : HttpResponse TzBody) : Except String ℚ :=
  if resp.statusCode = 200 ∧ resp.body.status = "OK" then
    Except.ok ((resp.body.rawOffset + resp.body.dstOffset : ℚ) / 60)
  else
    Except.error (tzErrMsgStart ++ resp.body.status)

/-- The three external services of the location/timezone chain, in the
order `getEchoUTCOffset` calls them. -/
inductive SvcCall
  | addr
  | geo
  | tz
deriving DecidableEq

/-- The environment of one run of the location/timezone chain: the
response each external service would give if called. -/
structure Env where
  addrResp : HttpResponse AddressBody
  geoResp : HttpResponse GeoBody
  tzResp : HttpResponse TzBody

/-- Embeds `getEchoUTCOffset` (src/index.js lines 221-225): the promise
chain `getEchoAddress().then(geocodeLocation).then(getUTCOffset)`.
A rejected stage short-circuits `then`, so later stages never run; the
returned list records which services were actually called. -/
def getEchoUTCOffset (env : Env) : Except String ℚ × List SvcCall :=
  match getEchoAddress env.addrResp with
  | Except.error e => (Except.error e, [SvcCall.addr])
  | Except.ok _addr =>
    match geocodeLocation env.geoResp with
    | Except.error e => (Except.error e, [SvcCall.addr, SvcCall.geo])
    | Except.ok _loc =>
      match getUTCOffset env.tzResp with
      | Except.error e => (Except.error e, [SvcCall.addr, SvcCall.geo, SvcCall.tz])
      | Except.ok offset => (Except.ok offset, [SvcCall.addr, SvcCall.geo, SvcCall.tz])

/-- The spec's stage-by-stage description of the chain, for the
refinement claim: a non-200 address response stops the chain with the
fixed permission message after only the address call; a failed geocode
response stops it with a message embedding the geocode body's status
field after the address and geocode calls; a failed timezone response
yields a message embedding the timezone body's status field; success
yields `(rawOffset + dstOffset) / 60` with all three services called. -/
def chainSpec (env : Env) : Except String ℚ × List SvcCall :=
  if env.addrResp.statusCode = 200 then
    if env.geoResp.statusCode = 200 ∧ env.geoResp.body.status = "OK" then
      if env.tzResp.statusCode = 200 ∧ env.tzResp.body.status = "OK" then
        (Except.ok ((env.tzResp.body.rawOffset + env.tzResp.body.dstOffset : ℚ) / 60),
         [SvcCall.addr, SvcCall.geo, SvcCall.tz])
      else
        (Except.error (tzErrMsgStart ++ env.tzResp.body.status),
         [SvcCall.addr, SvcCall.geo, SvcCall.tz])
    else
      (Except.error (geoErrMsgStart ++ env.geoResp.body.status),
       [SvcCall.addr, SvcCall.geo])
  else
    (Except.error addrPermissionMsg, [SvcCall.addr])

/-- A spoken response emitted through `this.emit` in the intent
handlers: `:tell`, `:ask` (speech and re-prompt), or
`:tellWithLinkAccountCard`. -/
inductive Response
  | tell (speech : String)
  | ask (speech reprompt : String)
  | tellWithLinkAccountCard (speech : String)
deriving DecidableEq

/-- The slots and tokens `slackBusyIntentHandler` reads from the inbound
event.  `none` models an absent (JavaScript `undefined`) value. -/
structure BusyRequest where
  deviceId : String
  consentToken : String
  accessToken : Option String
  statusSlot : Option String
  timeSlot : Option String

/-- JavaScript falsiness of a possibly-absent string: `undefined` and
the empty string are falsy; this is what `!access_token`, `!status`
and `!requested_time` test. -/
def jsFalsy (v : Option String) : Bool :=
  match v with
  | none => true
  | some s => s = ""

/-- Embeds the synchronous part of `slackBusyIntentHandler`
(src/index.js lines 59-83).  `this.emit` sends a response but does NOT
return from the handler, so each failed validation check appends its
response and execution falls through to the next statement; the
handler then always reaches line 78 and starts the
`getEchoUTCOffset` promise chain.  The result is the list of responses
emitted synchronously, paired with whether the external location
chain was started. -/
def slackBusyIntentHandler (req : BusyRequest) : List Response × Bool :=
  let e1 :=
    if jsFalsy req.accessToken then
      [Response.tellWithLinkAccountCard
        "Please connect your Slack account to Alexa using the Alexa app on your phone."]
    else []
  let e2 :=
    if jsFalsy req.statusSlot then
      [Response.ask "I didn't get your status, please try again."
        "I'm sorry, I didn't hear you. Could you say that again?"]
    else []
  let e3 :=
    if jsFalsy req.timeSlot then
      [Response.ask "I didn't get the time, please try again."
        "I'm sorry, I didn't hear you. Could you say that again?"]
    else []
  (e1 ++ e2 ++ e3, true)

/-! ## Theorems -/

/-- Claim C1: for every coarse time-of-day token, `normalizeAmazonTime`
returns exactly the specified clock string: morning ("MO") maps to
"09:00", afternoon ("AF") to "13:00", evening ("EV") to "19:00", and
night ("NI") to "21:00". -/
theorem normalizeAmazonTime_coarse_tokens :
    normalizeAmazonTime "MO" = "09:00" ∧
    normalizeAmazonTime "AF" = "13:00" ∧
    normalizeAmazonTime "EV" = "19:00" ∧
    normalizeAmazonTime "NI" = "21:00" := by
  refine ⟨rfl, ?_, ?_, ?_⟩ <;> decide

/-- Claim C2: for every input string that is not one of the four coarse
time tokens, `normalizeAmazonTime` is the identity function: it returns
the input unchanged, with no validation of whether it is well-formed
HH:mm. -/
theorem normalizeAmazonTime_passthrough (t : String)
    (h1 : t ≠ "MO") (h2 : t ≠ "AF") (h3 : t ≠ "EV") (h4 : t ≠ "NI") :
    normalizeAmazonTime t = t := by
  simp [normalizeAmazonTime, h1, h2, h3, h4]

/-- Witness for C2, at the (deliberately malformed) input "25:99": not a
coarse token, so it passes through unchanged with no validation. -/
theorem normalizeAmazonTime_passthrough_witness :
    normalizeAmazonTime "25:99" = "25:99" :=
  normalizeAmazonTime_passthrough "25:99" (by decide) (by decide) (by decide)
    (by decide)

/-- Claim C3: whenever the target moment (the requested wall-clock time
of day interpreted in the offset timezone) is at or after now, no day is
added: `getMinutesUntil` returns target minus now truncated to whole
minutes, and in the equality edge case the result is 0 because the
rollover comparison `now > target` is strict. -/
theorem getMinutesUntil_no_rollover (t offset todayMs nowMs : ℤ)
    (h : nowMs ≤ todayMs + t * 60000 - offset * 60000) :
    getMinutesUntil t offset todayMs nowMs
      = truncDiv (todayMs + t * 60000 - offset * 60000 - nowMs) 60000 ∧
    (nowMs = todayMs + t * 60000 - offset * 60000 →
      getMinutesUntil t offset todayMs nowMs = 0) := by
  have hn : ¬ nowMs > todayMs + t * 60000 - offset * 60000 := not_lt.mpr h
  constructor
  · simp [getMinutesUntil, hn]
  · intro he
    simp [getMinutesUntil, hn, he, truncDiv]

/-- Witness for C3: target 10:00 (600 minutes) at offset 0 with moment's
date at epoch 0, now 35,000,000 ms into the day (before 10:00): the
result is the truncated minute difference, concretely 16 minutes. -/
theorem getMinutesUntil_no_rollover_witness :
    getMinutesUntil 600 0 0 35000000
      = truncDiv (0 + 600 * 60000 - 0 * 60000 - 35000000) 60000 ∧
    getMinutesUntil 600 0 0 35000000 = 16 := by
  have h := getMinutesUntil_no_rollover 600 0 0 35000000 (by norm_num)
  exact ⟨h.1, by rw [h.1]; decide⟩

/-- Claim C4: whenever now is strictly after the target moment,
`getMinutesUntil` adds exactly one calendar day (86,400,000 ms) to the
target and returns target-plus-one-day minus now in whole minutes; when
the requested time of day is a well-formed HH:mm value and now lies
within the day moment assigned to the target (self-consistency), the
result lies in [0, 1440). -/
theorem getMinutesUntil_rollover (t offset todayMs nowMs : ℤ)
    (ht0 : 0 ≤ t) (ht1 : t < 1440)
    (h : todayMs + t * 60000 - offset * 60000 < nowMs)
    (hc0 : todayMs - offset * 60000 ≤ nowMs)
    (hc1 : nowMs < todayMs - offset * 60000 + 86400000) :
    getMinutesUntil t offset todayMs nowMs
      = truncDiv (todayMs + t * 60000 - offset * 60000 + 86400000 - nowMs) 60000 ∧
    0 ≤ getMinutesUntil t offset todayMs nowMs ∧
    getMinutesUntil t offset todayMs nowMs < 1440 := by
  have key : getMinutesUntil t offset todayMs nowMs
      = truncDiv (todayMs + t * 60000 - offset * 60000 + 86400000 - nowMs) 60000 := by
    simp [getMinutesUntil, h]
  have hd0 : 0 ≤ todayMs + t * 60000 - offset * 60000 + 86400000 - nowMs := by omega
  have hed : truncDiv (todayMs + t * 60000 - offset * 60000 + 86400000 - nowMs) 60000
      = (todayMs + t * 60000 - offset * 60000 + 86400000 - nowMs) / 60000 :=
    Int.tdiv_eq_ediv hd0 (by norm_num)
  refine ⟨key, ?_, ?_⟩ <;> rw [key, hed] <;> omega

/-- Witness for C4: target 09:00 (540 minutes) at offset 0 with moment's
date at epoch 0, now at 10:00 (36,000,000 ms): the rollover applies and
the result is 23 hours = 1380 minutes, inside [0, 1440). -/
theorem getMinutesUntil_rollover_witness :
    getMinutesUntil 540 0 0 36000000
      = truncDiv (0 + 540 * 60000 - 0 * 60000 + 86400000 - 36000000) 60000 ∧
    0 ≤ getMinutesUntil 540 0 0 36000000 ∧
    getMinutesUntil 540 0 0 36000000 < 1440 ∧
    getMinutesUntil 540 0 0 36000000 = 1380 := by
  have h := getMinutesUntil_rollover 540 0 0 36000000 (by norm_num) (by norm_num)
    (by norm_num) (by norm_num) (by norm_num)
  exact ⟨h.1, h.2.1, h.2.2, by rw [h.1]; decide⟩

/-- Claim C5: `emojifyStatus` tests substrings in the fixed priority
order lunch, coffee, busy, errand, doctor, away, call, meeting, sick,
commuting; the earliest matching keyword determines the result (in
particular "busy lunch" yields the lunch emoji with the original text,
not busy's override), and a string matching no keyword yields the
generic ":speech_balloon:" emoji with the original text preserved. -/
theorem emojifyStatus_priority_first_match :
    (∀ s, emojifyStatus s = emojifyStatusSpec s) ∧
    emojifyStatus "busy lunch" = ⟨"busy lunch", ":taco:"⟩ := by
  refine ⟨fun s => ?_, by decide⟩
  simp only [emojifyStatus, emojifyStatusSpec, priorityTable]
  split_ifs with h1 h2 h3 h4 h5 h6 h7 h8 h9 h10 <;>
    simp_all [List.find?]

/-- Counterexample to claim C6 at the concrete input "busy lunch": the
input contains "busy", yet the mapper does not return display text
"Do not disturb" (the earlier "lunch" check wins and the original text
is preserved). -/
theorem emojifyStatus_busy_lunch_overrides_busy :
    containsSub "busy" "busy lunch" = true ∧
    (emojifyStatus "busy lunch").status_text ≠ "Do not disturb" ∧
    emojifyStatus "busy lunch" = ⟨"busy lunch", ":taco:"⟩ := by
  decide

/-- Claim C6 as amended: for every input containing "busy" but neither
of the two keywords tested earlier ("lunch" and "coffee"),
`emojifyStatus` returns display text "Do not disturb" with the
":no_entry_sign:" emoji rather than echoing the input. -/
theorem emojifyStatus_busy_do_not_disturb (s : String)
    (hb : containsSub "busy" s = true)
    (hl : containsSub "lunch" s = false)
    (hc : containsSub "coffee" s = false) :
    emojifyStatus s = ⟨"Do not disturb", ":no_entry_sign:"⟩ := by
  simp [emojifyStatus, hb, hl, hc]

/-- Witness for the amended C6, at the input "very busy right now". -/
theorem emojifyStatus_busy_do_not_disturb_witness :
    emojifyStatus "very busy right now" = ⟨"Do not disturb", ":no_entry_sign:"⟩ :=
  emojifyStatus_busy_do_not_disturb "very busy right now" (by decide) (by decide)
    (by decide)

/-- Claim C10: keyword matching in `emojifyStatus` is case-sensitive
substring matching: "Lunch" and "BUSY" contain a priority keyword only
in a different letter case and no keyword in lowercase, so the mapper
matches nothing and returns the generic ":speech_balloon:" emoji with
the original text preserved. -/
theorem emojifyStatus_case_sensitive :
    emojifyStatus "Lunch" = ⟨"Lunch", ":speech_balloon:"⟩ ∧
    emojifyStatus "BUSY" = ⟨"BUSY", ":speech_balloon:"⟩ := by
  decide

set_option maxRecDepth 8000 in
/-- Counterexample to claim C7 at a concrete run: the device-address
service replies 403 with its own error field ("ACCESS_DENIED") in the
body; the chain does reject after only the address call, but the
rejection message is the fixed permission instruction, which does not
embed the service's error field. -/
theorem getEchoUTCOffset_addr_error_not_embedded :
    getEchoUTCOffset
        ⟨⟨403, ⟨"", "", "ACCESS_DENIED"⟩⟩,
         ⟨200, ⟨"OK", []⟩⟩,
         ⟨200, ⟨"OK", 0, 0⟩⟩⟩
      = (Except.error addrPermissionMsg, [SvcCall.addr]) ∧
    containsSub "ACCESS_DENIED" addrPermissionMsg = false := by
  constructor
  · rfl
  · decide

/-- Claim C7 as amended: the chain stops at the first failed stage and
attempts no later call; for the geocode and timezone stages the
rejection message embeds that service's status field, while for the
device-address stage the rejection message is the fixed permission
instruction (it embeds no field of the failing response). -/
theorem getEchoUTCOffset_chain_spec :
    (∀ env, getEchoUTCOffset env = chainSpec env) ∧
    (∀ st, containsSub st (geoErrMsgStart ++ st) = true) ∧
    (∀ st, containsSub st (tzErrMsgStart ++ st) = true) := by
  refine ⟨fun env => ?_, fun st => ?_, fun st => ?_⟩
  · unfold getEchoUTCOffset getEchoAddress geocodeLocation getUTCOffset chainSpec
    split_ifs <;> rfl
  · simp only [containsSub, String.toList, String.data_append, decide_eq_true_eq]
    exact (List.suffix_append _ _).isInfix
  · simp only [containsSub, String.toList, String.data_append, decide_eq_true_eq]
    exact (List.suffix_append _ _).isInfix

/-- Claim C8 evaluated at the failing input: a busy-intent request with
an access token and a time slot but no status slot.  The handler does
emit the distinct status re-prompt, but `this.emit` does not return:
execution falls through and the external `getEchoUTCOffset` chain is
still started (second component `true`), contrary to the claim that no
external API call is attempted; with two slots missing, two re-prompts
are emitted in the same turn, contrary to "exactly one spoken
response". -/
theorem slackBusyIntentHandler_missing_status_falls_through :
    slackBusyIntentHandler ⟨"device-1", "consent-1", some "token-1", none, some "13:00"⟩
      = ([Response.ask "I didn't get your status, please try again."
            "I'm sorry, I didn't hear you. Could you say that again?"], true) ∧
    (slackBusyIntentHandler ⟨"device-1", "consent-1", some "token-1", none, none⟩).1.length
      = 2 := by
  decide

/-- Claim C9: the timezone stage computes the final UTC offset as
(rawOffset + dstOffset) / 60 by exact numeric division of the second
values into minutes, not integer truncation: on a successful response
whose rawOffset + dstOffset is not a multiple of 60 the result equals
no integer. -/
theorem getUTCOffset_exact_division (resp : HttpResponse TzBody)
    (h1 : resp.statusCode = 200) (h2 : resp.body.status = "OK") :
    getUTCOffset resp
      = Except.ok ((resp.body.rawOffset + resp.body.dstOffset : ℚ) / 60) ∧
    (¬ (60 : ℤ) ∣ (resp.body.rawOffset + resp.body.dstOffset) →
      ∀ z : ℤ, ((resp.body.rawOffset + resp.body.dstOffset : ℚ) / 60) ≠ (z : ℚ)) := by
  constructor
  · simp [getUTCOffset, h1, h2]
  · intro hnd z hz
    rw [div_eq_iff (by norm_num : (60 : ℚ) ≠ 0)] at hz
    have hs : resp.body.rawOffset + resp.body.dstOffset = z * 60 := by
      exact_mod_cast hz
    exact hnd ⟨z, by omega⟩

/-- Witness for C9: a successful timezone response with rawOffset 3600
and dstOffset 90 seconds; 3690 is not a multiple of 60, and the offset
is the exact quotient 3690/60 = 61.5 minutes, not the integer 61. -/
theorem getUTCOffset_exact_division_witness :
    getUTCOffset ⟨200, ⟨"OK", 3600, 90⟩⟩
      = Except.ok ((((3600 : ℤ) : ℚ) + ((90 : ℤ) : ℚ)) / 60) ∧
    ((((3600 : ℤ) : ℚ) + ((90 : ℤ) : ℚ)) / 60) ≠ (((61 : ℤ) : ℚ)) := by
  have h := getUTCOffset_exact_division ⟨200, ⟨"OK", 3600, 90⟩⟩ rfl rfl
  exact ⟨h.1, h.2 (by decide) 61⟩

end AlexaSlack
